import Mathlib

/-!
Verification development for the smart-greenhouse ESP32 firmware.

The definitions below are a shallow embedding of the firmware's command
handler (`messageHandler`), control task (`TaskControlSystem`), sensor task
(`TaskReadSensors`), boot-time rollback protection (`setup`), MQTT
connection bookkeeping (`TaskConnectivity`), and the offline telemetry
drain (`processOfflineData`).

Modelling conventions:
- C++ `float`/`double` values are modelled as exact rationals (`ℚ`);
  the only float operations the embedded code performs on them are
  comparisons and an absolute-difference guard, which the claims exercise
  at exactly representable values.
- C++ `int`/`long` arithmetic is modelled on `ℤ`; C++ integer division
  truncates toward zero, which is `Int.tdiv`.
- The NVS key/value store is modelled by the in-RAM configuration record
  together with explicit per-key flash-write counters (`FlashWrites`),
  since the firmware always writes the RAM global and the NVS key together
  under the same guard.
-/

namespace Greenhouse

/-- Arduino's `constrain(amt, low, high)` macro:
`(amt < low) ? low : ((amt > high) ? high : amt)`. -/
def constrain (x lo hi : ℤ) : ℤ :=
  if x < lo then lo else if x > hi then hi else x

/-- Arduino's `map(x, in_min, in_max, out_min, out_max)`:
`(x - in_min) * (out_max - out_min) / (in_max - in_min) + out_min`
with C++ (truncate-toward-zero) integer division. -/
def arduinoMap (x inMin inMax outMin outMax : ℤ) : ℤ :=
  Int.tdiv ((x - inMin) * (outMax - outMin)) (inMax - inMin) + outMin

/-- The configurable parameters loaded from NVS (firmware globals
`TEMP_MIN_NIGHT` .. `WATER_VAL`). -/
structure Config where
  TEMP_MIN_NIGHT : ℚ
  TEMP_MAX_DAY : ℚ
  HUM_MAX : ℚ
  SOIL_DRY : ℤ
  SOIL_WET : ℤ
  TANK_EMPTY_DIST : ℤ
  TANK_FULL_DIST : ℤ
  AIR_VAL : ℤ
  WATER_VAL : ℤ
deriving DecidableEq, Repr

/-- The compile-time defaults (also the NVS fallback values). -/
def defaultConfig : Config :=
  { TEMP_MIN_NIGHT := 20, TEMP_MAX_DAY := 30, HUM_MAX := 75,
    SOIL_DRY := 40, SOIL_WET := 70,
    TANK_EMPTY_DIST := 25, TANK_FULL_DIST := 5,
    AIR_VAL := 4095, WATER_VAL := 1670 }

/-- Soil-moisture percentage computed by `TaskReadSensors`:
`rawADC = constrain(rawADC, WATER_VAL, AIR_VAL);`
`soilMoisture = map(rawADC, AIR_VAL, WATER_VAL, 0, 100);` -/
def soilFromRaw (cfg : Config) (raw : ℤ) : ℤ :=
  let r := constrain raw cfg.WATER_VAL cfg.AIR_VAL
  arduinoMap r cfg.AIR_VAL cfg.WATER_VAL 0 100

/-- Modelled from the spec: the symmetric clamp-and-map soil percentage the
spec describes ("Reversed calibration (water_raw > air_raw) is supported by
treating the mapping symmetrically"): clamp the raw reading to the interval
between the two calibration points, then linearly map so `cal_air_raw → 0`
and `cal_water_raw → 100` (same integer division as the code). -/
def specSoilPct (airVal waterVal raw : ℤ) : ℤ :=
  let lo := min airVal waterVal
  let hi := max airVal waterVal
  let r := constrain raw lo hi
  Int.tdiv ((r - airVal) * 100) (waterVal - airVal)

/-- Mode and manual-override latches (`manualMode`, `manualPump`,
`manualFan`, `manualHeater`). -/
structure CtrlState where
  manualMode : Bool
  manualPump : Bool
  manualFan : Bool
  manualHeater : Bool
deriving DecidableEq, Repr

/-- Actuator status words (`pumpStatus`, `fanStatus`, `heaterStatus`). -/
structure Actuators where
  pumpStatus : Bool
  fanStatus : Bool
  heaterStatus : Bool
deriving DecidableEq, Repr

/-- Sensor inputs consumed by one `TaskControlSystem` cycle: the raw
`pulseIn` echo duration (µs, `0` on the 30 ms timeout) and the shared
sensor snapshot. -/
structure CtrlInput where
  duration : ℤ
  soilMoisture : ℤ
  currentTemp : ℚ
  currentHum : ℚ
deriving DecidableEq, Repr

/-- The raw `distanceCM` before clamping: on `pulseIn` timeout
(`duration == 0`) the code substitutes `TANK_EMPTY_DIST`, otherwise
`duration * 0.034 / 2` truncated to `int` (idealised here as exact
`duration * 17 / 1000`; no claim depends on the non-timeout branch). -/
def rawDistance (cfg : Config) (duration : ℤ) : ℤ :=
  if duration = 0 then cfg.TANK_EMPTY_DIST
  else Int.tdiv (duration * 17) 1000

/-- `distanceCM` after `constrain(distanceCM, TANK_FULL_DIST, TANK_EMPTY_DIST)`. -/
def tankDistance (cfg : Config) (duration : ℤ) : ℤ :=
  constrain (rawDistance cfg duration) cfg.TANK_FULL_DIST cfg.TANK_EMPTY_DIST

/-- `bool tankHasWater = (distanceCM < TANK_EMPTY_DIST);` -/
def hasWaterOf (cfg : Config) (duration : ℤ) : Bool :=
  decide (tankDistance cfg duration < cfg.TANK_EMPTY_DIST)

/-- `waterTankLevel = map(distanceCM, TANK_EMPTY_DIST, TANK_FULL_DIST, 0, 100);` -/
def tankLevelOf (cfg : Config) (duration : ℤ) : ℤ :=
  arduinoMap (tankDistance cfg duration) cfg.TANK_EMPTY_DIST cfg.TANK_FULL_DIST 0 100

/-- One cycle of `TaskControlSystem`: manual mode copies the override
latches to the actuators; AUTO mode applies pump hysteresis with the
tank-water interlock, threshold fan control, and threshold heater
control. `prev` is the actuator state left by the previous cycle
(the hysteresis middle band leaves the pump relay untouched). -/
def controlStep (cfg : Config) (t : CtrlState) (inp : CtrlInput)
    (prev : Actuators) : Actuators :=
  let hw := hasWaterOf cfg inp.duration
  if t.manualMode then
    { pumpStatus := t.manualPump, fanStatus := t.manualFan,
      heaterStatus := t.manualHeater }
  else
    let pump :=
      if decide (inp.soilMoisture < cfg.SOIL_DRY) && hw then true
      else if decide (inp.soilMoisture > cfg.SOIL_WET) || !hw then false
      else prev.pumpStatus
    let fan := decide (inp.currentTemp > cfg.TEMP_MAX_DAY) ||
               decide (inp.currentHum > cfg.HUM_MAX)
    let heater := decide (inp.currentTemp < cfg.TEMP_MIN_NIGHT)
    { pumpStatus := pump, fanStatus := fan, heaterStatus := heater }

/-- A parsed command payload delivered on `greenhouse/{id}/commands`.
Each field is `some v` when the corresponding JSON key (or its accepted
alias, for the first three) is present with value `v`, and `none` when the
key is absent.  `update_url` is omitted: OTA touches no modelled state. -/
structure Cmd where
  temp_min : Option ℚ
  temp_max : Option ℚ
  hum_max : Option ℚ
  soil_dry : Option ℤ
  soil_wet : Option ℤ
  tank_empty_dist : Option ℤ
  tank_full_dist : Option ℤ
  cal_air : Option ℤ
  cal_water : Option ℤ
  mode : Option String
  pump : Option ℤ
  fan : Option ℤ
  heater : Option ℤ
deriving DecidableEq, Repr

/-- The command payload in which every key is absent. -/
def emptyCmd : Cmd :=
  { temp_min := none, temp_max := none, hum_max := none,
    soil_dry := none, soil_wet := none,
    tank_empty_dist := none, tank_full_dist := none,
    cal_air := none, cal_water := none,
    mode := none, pump := none, fan := none, heater := none }

/-- One float setpoint block of `messageHandler`
(`temp_min`, `temp_max`, `hum_max` all follow this shape):
`if (val >= 0 && val <= 100) { if (abs(cur - val) > 0.1) { cur = val; preferences.putFloat(key, cur); } }`.
Returns the new RAM value and the number of flash writes performed (0 or 1). -/
def floatUpd (v : Option ℚ) (cur : ℚ) : ℚ × Nat :=
  match v with
  | none => (cur, 0)
  | some val =>
    if 0 ≤ val ∧ val ≤ 100 then
      if |cur - val| > 1 / 10 then (val, 1) else (cur, 0)
    else (cur, 0)

/-- One integer config block of `messageHandler`, parameterised by the
range check `ok` (`0 ≤ v ≤ 100` for the soil thresholds, `0 < v < 1000`
for the tank distances, vacuous for the calibration values):
`if (ok(val)) { if (cur != val) { cur = val; preferences.putInt(key, cur); } }`. -/
def intUpd (ok : ℤ → Bool) (v : Option ℤ) (cur : ℤ) : ℤ × Nat :=
  match v with
  | none => (cur, 0)
  | some val =>
    if ok val then
      if cur ≠ val then (val, 1) else (cur, 0)
    else (cur, 0)

/-- Range check of the soil threshold blocks: `val >= 0 && val <= 100`. -/
def soilRangeOk (v : ℤ) : Bool := decide (0 ≤ v ∧ v ≤ 100)

/-- Range check of the tank distance blocks: `val > 0 && val < 1000`. -/
def tankRangeOk (v : ℤ) : Bool := decide (0 < v ∧ v < 1000)

/-- Range check of the calibration blocks (the code has none). -/
def calRangeOk (_ : ℤ) : Bool := true

/-- The `mode` block of `messageHandler`: exact matches against
`"MANUAL"`, `"manual"`, `"1"` set manual mode; exact matches against
`"AUTO"`, `"auto"`, `"0"` set auto mode and clear all three override
latches; any other string changes nothing. -/
def applyMode (m : String) (t : CtrlState) : CtrlState :=
  if m = "MANUAL" ∨ m = "manual" ∨ m = "1" then
    { t with manualMode := true }
  else if m = "AUTO" ∨ m = "auto" ∨ m = "0" then
    { manualMode := false, manualPump := false,
      manualFan := false, manualHeater := false }
  else t

/-- The `pump` block: honored only when `manualMode` is set at the time the
key is processed; `manualPump = (val == 1)`. -/
def stepPump (v : Option ℤ) (t : CtrlState) : CtrlState :=
  match v with
  | none => t
  | some val => if t.manualMode then { t with manualPump := decide (val = 1) } else t

/-- The `fan` block, same shape as `pump`. -/
def stepFan (v : Option ℤ) (t : CtrlState) : CtrlState :=
  match v with
  | none => t
  | some val => if t.manualMode then { t with manualFan := decide (val = 1) } else t

/-- The `heater` block, same shape as `pump`. -/
def stepHeater (v : Option ℤ) (t : CtrlState) : CtrlState :=
  match v with
  | none => t
  | some val => if t.manualMode then { t with manualHeater := decide (val = 1) } else t

/-- Per-key count of NVS writes performed by one `messageHandler` call. -/
structure FlashWrites where
  w_temp_min : Nat
  w_temp_max : Nat
  w_hum_max : Nat
  w_soil_dry : Nat
  w_soil_wet : Nat
  w_tank_empty : Nat
  w_tank_full : Nat
  w_cal_air : Nat
  w_cal_water : Nat
deriving DecidableEq, Repr

/-- Zero flash writes. -/
def noWrites : FlashWrites := ⟨0, 0, 0, 0, 0, 0, 0, 0, 0⟩

/-- State seen by the command handler: the RAM configuration globals and
the mode/override latches. -/
structure HandlerState where
  cfg : Config
  ctl : CtrlState
deriving DecidableEq, Repr

/-- The MQTT command callback `messageHandler`, after JSON parsing:
the nine configuration blocks run first (each reads and writes only its
own global), then the `mode` block, then the `pump`, `fan`, `heater`
blocks in source order. -/
def messageHandler (c : Cmd) (s : HandlerState) : HandlerState × FlashWrites :=
  let rtm := floatUpd c.temp_min s.cfg.TEMP_MIN_NIGHT
  let rtx := floatUpd c.temp_max s.cfg.TEMP_MAX_DAY
  let rhm := floatUpd c.hum_max s.cfg.HUM_MAX
  let rsd := intUpd soilRangeOk c.soil_dry s.cfg.SOIL_DRY
  let rsw := intUpd soilRangeOk c.soil_wet s.cfg.SOIL_WET
  let rte := intUpd tankRangeOk c.tank_empty_dist s.cfg.TANK_EMPTY_DIST
  let rtf := intUpd tankRangeOk c.tank_full_dist s.cfg.TANK_FULL_DIST
  let rca := intUpd calRangeOk c.cal_air s.cfg.AIR_VAL
  let rcw := intUpd calRangeOk c.cal_water s.cfg.WATER_VAL
  let t1 := match c.mode with
    | some m => applyMode m s.ctl
    | none => s.ctl
  let t2 := stepPump c.pump t1
  let t3 := stepFan c.fan t2
  let t4 := stepHeater c.heater t3
  (⟨{ TEMP_MIN_NIGHT := rtm.1, TEMP_MAX_DAY := rtx.1, HUM_MAX := rhm.1,
      SOIL_DRY := rsd.1, SOIL_WET := rsw.1,
      TANK_EMPTY_DIST := rte.1, TANK_FULL_DIST := rtf.1,
      AIR_VAL := rca.1, WATER_VAL := rcw.1 }, t4⟩,
   ⟨rtm.2, rtx.2, rhm.2, rsd.2, rsw.2, rte.2, rtf.2, rca.2, rcw.2⟩)

/-- The persisted boot-health keys (`crash_count`, `rb_happened`). -/
structure BootNvs where
  crash_count : ℤ
  rb_happened : Bool
deriving DecidableEq, Repr

/-- The rollback-protection block at the top of `setup()`.
Returns the final persisted boot-health state, the ordered list of values
written to the `crash_count` key during the block, and whether the device
rebooted inside the block (the `Update.rollBack(); ESP.restart();` path,
which never reaches the trailing increment).

Note the no-rollback-slot path: after `preferences.putInt("crash_count", 0)`
execution falls through to the unconditional
`preferences.putInt("crash_count", crashCount + 1)`, which uses the value
read before the reset — so the reset is immediately overwritten. -/
def setupBoot (canRollBack : Bool) (nvs : BootNvs) : BootNvs × List ℤ × Bool :=
  let c := nvs.crash_count
  if c ≥ 3 then
    if canRollBack then
      ({ crash_count := 0, rb_happened := true }, [0], true)
    else
      ({ nvs with crash_count := c + 1 }, [0, c + 1], false)
  else
    ({ nvs with crash_count := c + 1 }, [c + 1], false)

/-- Outcome of the post-connect bookkeeping inside `TaskConnectivity`:
how many `ROLLBACK_EXECUTED` publish calls were attempted and how many of
them the publish call acknowledged. -/
structure ConnectOut where
  nvs : BootNvs
  attempts : Nat
  successes : Nat
deriving DecidableEq, Repr

/-- The body run right after `client.connect(...)` succeeds:
clear a positive `crash_count` to 0; then, if `rb_happened` is set,
publish one `ROLLBACK_EXECUTED` alert and clear the flag only when the
publish call returns success. `publishOk` is the return value of
`client.publish` for this attempt. -/
def onMqttConnect (publishOk : Bool) (nvs : BootNvs) : ConnectOut :=
  let n1 := if nvs.crash_count > 0 then { nvs with crash_count := 0 } else nvs
  if n1.rb_happened then
    if publishOk then
      ({ nvs := { n1 with rb_happened := false }, attempts := 1, successes := 1 })
    else
      ({ nvs := n1, attempts := 1, successes := 0 })
  else
    ({ nvs := n1, attempts := 0, successes := 0 })

/-- A sequence of successful MQTT connections, each with the publish-call
outcome the broker client returned for the (possible) rollback alert. -/
def runConnects (nvs : BootNvs) : List Bool → ConnectOut
  | [] => { nvs := nvs, attempts := 0, successes := 0 }
  | ok :: rest =>
    let r := onMqttConnect ok nvs
    let rr := runConnects r.nvs rest
    { nvs := rr.nvs, attempts := r.attempts + rr.attempts,
      successes := r.successes + rr.successes }

/-- State of the offline telemetry spool: the `hasOfflineData` RAM flag and
the line contents of `/processing.txt` and `/offline_log.txt` (`none` when
the file does not exist). -/
structure SpoolState where
  hasOfflineData : Bool
  processing : Option (List String)
  offlineLog : Option (List String)
deriving DecidableEq, Repr

/-- The retry loop inside `processOfflineData` over the lines of
`/processing.txt`: each line is trimmed, empty lines are skipped, and each
non-empty line is published until the first publish that fails
(`!client.connected() || !client.publish(...)`, folded into `pub`).
Returns the successfully published lines in order and the `allSent` flag. -/
def drainLines (pub : String → Bool) : List String → List String × Bool
  | [] => ([], true)
  | l :: ls =>
    let t := l.trim
    if 0 < t.length then
      if pub t then
        let r := drainLines pub ls
        (t :: r.1, r.2)
      else ([], false)
    else drainLines pub ls

/-- `processOfflineData`, fuelled (the real recursion depth is at most 2:
the rename-and-recurse step empties `/offline_log.txt` first).  Returns the
final spool state and every line successfully published during the call.
Phase 1 drains `/processing.txt`, deleting it only on a complete pass and
aborting the call on a publish failure; phase 2 renames `/offline_log.txt`
to `/processing.txt` and recurses. -/
def processOfflineData (pub : String → Bool) : Nat → SpoolState → SpoolState × List String
  | 0, s => (s, [])
  | n + 1, s =>
    if s.hasOfflineData = false then (s, [])
    else
      match s.processing, s.offlineLog with
      | none, none => ({ s with hasOfflineData := false }, [])
      | some p, lg =>
        let r := drainLines pub p
        if r.2 then
          match lg with
          | some l2 =>
            let rec2 := processOfflineData pub n
              { s with processing := some l2, offlineLog := none }
            (rec2.1, r.1 ++ rec2.2)
          | none => ({ s with processing := none }, r.1)
        else (s, r.1)
      | none, some l2 =>
        processOfflineData pub n { s with processing := some l2, offlineLog := none }

/-- The trimmed non-empty lines of a spool file, in file order. -/
def cleanLines (ls : List String) : List String :=
  (ls.map String.trim).filter (fun t => decide (0 < t.length))

/-! Concrete inputs used by counterexamples, evaluations and witnesses. -/

/-- AUTO mode with no override latched (the boot state). -/
def autoCtl : CtrlState := ⟨false, false, false, false⟩

/-- Handler state at the compile-time defaults, AUTO mode. -/
def state0 : HandlerState := ⟨defaultConfig, autoCtl⟩

/-- All actuators off. -/
def offActs : Actuators := ⟨false, false, false⟩

/-- The payload of spec scenario 6: `{"temp_min":35,"temp_max":30}`. -/
def cmdC2 : Cmd := { emptyCmd with temp_min := some 35, temp_max := some 30 }

/-- The payload `{"mode":"Manual"}` — a letter-case variant of `MANUAL`. -/
def cmdModeMixedCase : Cmd := { emptyCmd with mode := some "Manual" }

/-- The payload of spec scenario 4: `{"mode":"MANUAL","pump":1}`. -/
def cmdManualPumpOn : Cmd := { emptyCmd with mode := some "MANUAL", pump := some 1 }

/-- A reversed soil calibration: `cal_water_raw (3000) > cal_air_raw (1000)`. -/
def cfgReversedCal : Config := { defaultConfig with AIR_VAL := 1000, WATER_VAL := 3000 }

/-- A control-cycle input with a valid echo (distance 1 cm), soil 50 %,
temperature 32 °C, humidity 50 %. -/
def inpTemp32 : CtrlInput := ⟨100, 50, 32, 50⟩

/-! Helper lemmas. -/

lemma constrain_bounds {x lo hi : ℤ} (h : lo ≤ hi) :
    lo ≤ constrain x lo hi ∧ constrain x lo hi ≤ hi := by
  unfold constrain; split_ifs <;> omega

lemma tdiv_pct_bounds {a d : ℤ} (ha : 0 ≤ a) (had : a ≤ d) (hd : 0 < d) :
    0 ≤ Int.tdiv (a * 100) d ∧ Int.tdiv (a * 100) d ≤ 100 := by
  have hnum : (0 : ℤ) ≤ a * 100 := by omega
  refine ⟨Int.tdiv_nonneg hnum hd.le, ?_⟩
  rw [Int.tdiv_eq_ediv hnum hd.le]
  calc a * 100 / d ≤ d * 100 / d := Int.ediv_le_ediv hd (by omega)
    _ = 100 := Int.mul_ediv_cancel_left 100 (by omega)

/-! Theorems for the claims. -/

/-- Claim C1: in AUTO mode, in every control cycle, the pump turns ON only
when `soil < SOIL_DRY` and the tank has water; it is OFF whenever
`soil > SOIL_WET` or the tank lacks water; between the thresholds with
water present it retains its previous state; and whenever the tank lacks
water the pump is OFF by the end of the cycle.  (Stated under the spec's
configuration invariant `soil_dry < soil_wet`.) -/
theorem C1_pump_hysteresis (cfg : Config) (p f h : Bool) (inp : CtrlInput)
    (prev : Actuators) (a : Actuators) (hw : Bool)
    (hdw : cfg.SOIL_DRY < cfg.SOIL_WET)
    (ha : a = controlStep cfg ⟨false, p, f, h⟩ inp prev)
    (hhw : hw = hasWaterOf cfg inp.duration) :
    (prev.pumpStatus = false → a.pumpStatus = true →
       inp.soilMoisture < cfg.SOIL_DRY ∧ hw = true) ∧
    ((inp.soilMoisture > cfg.SOIL_WET ∨ hw = false) → a.pumpStatus = false) ∧
    (cfg.SOIL_DRY ≤ inp.soilMoisture → inp.soilMoisture ≤ cfg.SOIL_WET →
       hw = true → a.pumpStatus = prev.pumpStatus) ∧
    (hw = false → a.pumpStatus = false) ∧
    (prev.pumpStatus = true → a.pumpStatus = false →
       inp.soilMoisture > cfg.SOIL_WET ∨ hw = false) := by
  subst ha hhw
  cases hhw2 : hasWaterOf cfg inp.duration <;>
    by_cases h1 : inp.soilMoisture < cfg.SOIL_DRY <;>
    by_cases h2 : inp.soilMoisture > cfg.SOIL_WET <;>
    cases hp : prev.pumpStatus <;>
    simp_all [controlStep] <;> omega

/-- Witness for C1 at the middle of the hysteresis band: soil 50 with
thresholds 40/70, tank has water, previous pump state ON is retained. -/
theorem C1_pump_hysteresis_witness :
    (controlStep defaultConfig ⟨false, false, false, false⟩ ⟨100, 50, 25, 50⟩
      ⟨true, false, false⟩).pumpStatus = true := by
  have h := C1_pump_hysteresis defaultConfig false false false ⟨100, 50, 25, 50⟩
    ⟨true, false, false⟩ _ _ (by decide) rfl rfl
  exact (h.2.2.1 (by decide) (by decide) (by decide)).trans rfl

/-- Claim C3 (code bug evaluation): at a boot with persisted
`crash_count = 3` and no rollback slot, the block writes `0` to
`crash_count` but the unconditional trailing increment then writes the
stale `crashCount + 1 = 4`, so the boot ends with `crash_count = 4`
instead of the reset the claim (and the code's own comment) describes. -/
theorem C3_stale_crash_count_eval :
    setupBoot false ⟨3, false⟩ = (⟨4, false⟩, [0, 4], false) := by decide

/-- Claim C5: when the ultrasonic echo times out (`duration == 0`), the
distance is reported as `TANK_EMPTY_DIST`, `tankHasWater` is false, and in
AUTO mode the control cycle switches the pump OFF. -/
theorem C5_ultrasonic_timeout (cfg : Config) (p f h : Bool) (soil : ℤ)
    (temp hum : ℚ) (prev : Actuators) :
    rawDistance cfg 0 = cfg.TANK_EMPTY_DIST ∧
    hasWaterOf cfg 0 = false ∧
    (controlStep cfg ⟨false, p, f, h⟩ ⟨0, soil, temp, hum⟩ prev).pumpStatus = false := by
  have hw : hasWaterOf cfg 0 = false := by
    simp only [hasWaterOf, tankDistance, rawDistance, constrain, if_pos rfl]
    split_ifs <;> simp <;> omega
  refine ⟨by simp [rawDistance], hw, ?_⟩
  simp [controlStep, hw]

/-- Counterexample for C6: with the reversed calibration
`cal_air_raw = 1000 < cal_water_raw = 3000`, a raw reading of 1500 (a
quarter of the way from air to water, symmetric map value 25 %) is clamped
by `constrain(raw, WATER_VAL, AIR_VAL)` to `WATER_VAL` and mapped to
100 % — the code does not treat reversed calibration symmetrically. -/
theorem C6_reversed_cal_counterexample :
    soilFromRaw cfgReversedCal 1500 = 100 ∧
    specSoilPct cfgReversedCal.AIR_VAL cfgReversedCal.WATER_VAL 1500 = 25 ∧
    soilFromRaw cfgReversedCal 1500 ≠
      specSoilPct cfgReversedCal.AIR_VAL cfgReversedCal.WATER_VAL 1500 := by
  refine ⟨by decide, by decide, by decide⟩

/-- Claim C6 as amended: with normal calibration
(`cal_water_raw < cal_air_raw`) the computed percentage equals the
clamp-then-linear-map of the spec (`cal_air_raw → 0`,
`cal_water_raw → 100`) and lies in `[0, 100]`; with reversed calibration
(`cal_water_raw > cal_air_raw`) the clamp degenerates and every reading
below `cal_water_raw` yields 100 % while every other reading yields 0 %
(still within `[0, 100]`, but not the symmetric mapping). -/
theorem C6_soil_percentage (cfg : Config) (raw : ℤ) :
    (cfg.WATER_VAL < cfg.AIR_VAL →
       soilFromRaw cfg raw = specSoilPct cfg.AIR_VAL cfg.WATER_VAL raw ∧
       0 ≤ soilFromRaw cfg raw ∧ soilFromRaw cfg raw ≤ 100 ∧
       (cfg.AIR_VAL ≤ raw → soilFromRaw cfg raw = 0) ∧
       (raw ≤ cfg.WATER_VAL → soilFromRaw cfg raw = 100)) ∧
    (cfg.AIR_VAL < cfg.WATER_VAL →
       soilFromRaw cfg raw = if raw < cfg.WATER_VAL then 100 else 0) := by
  constructor
  · intro hlt
    have hcb := constrain_bounds (x := raw) hlt.le
    set r := constrain raw cfg.WATER_VAL cfg.AIR_VAL with hr
    have hval : soilFromRaw cfg raw =
        Int.tdiv ((r - cfg.AIR_VAL) * 100) (cfg.WATER_VAL - cfg.AIR_VAL) := by
      simp [soilFromRaw, arduinoMap, hr]
    have hneg : Int.tdiv ((r - cfg.AIR_VAL) * 100) (cfg.WATER_VAL - cfg.AIR_VAL) =
        Int.tdiv ((cfg.AIR_VAL - r) * 100) (cfg.AIR_VAL - cfg.WATER_VAL) := by
      have e1 : (r - cfg.AIR_VAL) * 100 = -((cfg.AIR_VAL - r) * 100) := by ring
      have e2 : cfg.WATER_VAL - cfg.AIR_VAL = -(cfg.AIR_VAL - cfg.WATER_VAL) := by ring
      rw [e1, e2, Int.neg_tdiv_neg]
    have hb := tdiv_pct_bounds (a := cfg.AIR_VAL - r) (d := cfg.AIR_VAL - cfg.WATER_VAL)
      (by omega) (by omega) (by omega)
    refine ⟨?_, ?_, ?_, ?_, ?_⟩
    · simp [soilFromRaw, specSoilPct, arduinoMap, hr,
        min_eq_right hlt.le, max_eq_left hlt.le]
    · rw [hval, hneg]; exact hb.1
    · rw [hval, hneg]; exact hb.2
    · intro hra
      have hrA : r = cfg.AIR_VAL := by rw [hr]; unfold constrain; split_ifs <;> omega
      rw [hval, hrA]
      simp
    · intro hrw
      have hrW : r = cfg.WATER_VAL := by rw [hr]; unfold constrain; split_ifs <;> omega
      rw [hval, hrW]
      exact Int.mul_tdiv_cancel_left 100 (by omega)
  · intro hgt
    by_cases hrw : raw < cfg.WATER_VAL
    · have hr : constrain raw cfg.WATER_VAL cfg.AIR_VAL = cfg.WATER_VAL := by
        unfold constrain
        split_ifs
        omega
      simp only [soilFromRaw, arduinoMap, hr, if_pos hrw, sub_zero, add_zero]
      exact Int.mul_tdiv_cancel_left 100 (by omega)
    · have hr : constrain raw cfg.WATER_VAL cfg.AIR_VAL = cfg.AIR_VAL := by
        unfold constrain; split_ifs <;> omega
      simp [soilFromRaw, arduinoMap, hr, if_neg hrw]

/-- Witness for C6: default calibration (1670 < 4095) maps a fully-dry
reading (5000 ≥ cal_air) to 0 %; the reversed calibration maps a reading
below cal_water to 100 %. -/
theorem C6_soil_percentage_witness :
    soilFromRaw defaultConfig 5000 = 0 ∧ soilFromRaw cfgReversedCal 500 = 100 := by
  constructor
  · exact ((C6_soil_percentage defaultConfig 5000).1 (by decide)).2.2.2.1 (by decide)
  · have h := (C6_soil_percentage cfgReversedCal 500).2 (by decide)
    rw [h]; decide

lemma floatUpd_write (cur val : ℚ) (hr : 0 ≤ val ∧ val ≤ 100)
    (hd : |cur - val| > 1 / 10) : floatUpd (some val) cur = (val, 1) := by
  show (if 0 ≤ val ∧ val ≤ 100 then
    if |cur - val| > 1 / 10 then (val, 1) else (cur, 0) else (cur, 0)) = (val, 1)
  rw [if_pos hr, if_pos hd]

lemma floatUpd_keep_tol (cur val : ℚ) (hd : ¬ |cur - val| > 1 / 10) :
    floatUpd (some val) cur = (cur, 0) := by
  show (if 0 ≤ val ∧ val ≤ 100 then
    if |cur - val| > 1 / 10 then (val, 1) else (cur, 0) else (cur, 0)) = (cur, 0)
  by_cases hr : 0 ≤ val ∧ val ≤ 100
  · rw [if_pos hr, if_neg hd]
  · rw [if_neg hr]

lemma floatUpd_at_self (val : ℚ) : floatUpd (some val) val = (val, 0) := by
  apply floatUpd_keep_tol
  norm_num

lemma floatUpd_idem (v : Option ℚ) (cur : ℚ) :
    floatUpd v (floatUpd v cur).1 = ((floatUpd v cur).1, 0) := by
  cases v with
  | none => rfl
  | some val =>
    by_cases hr : 0 ≤ val ∧ val ≤ 100
    · by_cases hd : |cur - val| > 1 / 10
      · rw [floatUpd_write cur val hr hd]
        simpa using floatUpd_at_self val
      · rw [floatUpd_keep_tol cur val hd]
        simpa using floatUpd_keep_tol cur val hd
    · have hk : floatUpd (some val) cur = (cur, 0) := by simp [floatUpd, hr]
      rw [hk]
      simpa using hk

lemma intUpd_idem (ok : ℤ → Bool) (v : Option ℤ) (cur : ℤ) :
    intUpd ok v (intUpd ok v cur).1 = ((intUpd ok v cur).1, 0) := by
  cases v with
  | none => rfl
  | some val =>
    by_cases ho : ok val
    · by_cases he : cur ≠ val
      · simp [intUpd, ho, he]
      · simp [intUpd, ho, he]
    · simp [intUpd, ho]

lemma floatUpd_snd_le (v : Option ℚ) (cur : ℚ) : (floatUpd v cur).2 ≤ 1 := by
  cases v with
  | none => simp [floatUpd]
  | some val => simp only [floatUpd]; split_ifs <;> simp

lemma intUpd_snd_le (ok : ℤ → Bool) (v : Option ℤ) (cur : ℤ) :
    (intUpd ok v cur).2 ≤ 1 := by
  cases v with
  | none => simp [intUpd]
  | some val => simp only [intUpd]; split_ifs <;> simp

lemma stepPump_mode (v : Option ℤ) (t : CtrlState) :
    (stepPump v t).manualMode = t.manualMode := by
  cases v with
  | none => rfl
  | some val => simp only [stepPump]; split_ifs <;> rfl

lemma stepFan_mode (v : Option ℤ) (t : CtrlState) :
    (stepFan v t).manualMode = t.manualMode := by
  cases v with
  | none => rfl
  | some val => simp only [stepFan]; split_ifs <;> rfl

lemma stepHeater_mode (v : Option ℤ) (t : CtrlState) :
    (stepHeater v t).manualMode = t.manualMode := by
  cases v with
  | none => rfl
  | some val => simp only [stepHeater]; split_ifs <;> rfl

lemma msgC2_eval : messageHandler cmdC2 state0 =
    (⟨{ defaultConfig with TEMP_MIN_NIGHT := 35 }, autoCtl⟩,
     { noWrites with w_temp_min := 1 }) := by
  have h1 : floatUpd (some 35) 20 = (35, 1) :=
    floatUpd_write 20 35 (by norm_num) (by norm_num)
  have h2 : floatUpd (some 30) 30 = (30, 0) := floatUpd_at_self 30
  simp only [messageHandler, cmdC2, state0, emptyCmd, defaultConfig]
  rw [h1, h2]
  simp [floatUpd, intUpd, stepPump, stepFan, stepHeater, autoCtl, noWrites]

lemma heaterC2_eval (cfg : Config) (hmin : cfg.TEMP_MIN_NIGHT = 35) :
    (controlStep cfg autoCtl inpTemp32 offActs).heaterStatus = true := by
  norm_num [controlStep, autoCtl, inpTemp32, hmin]

/-- Counterexample for C2: the handler never cross-validates fields, so
spec scenario 6 (`{"temp_min":35,"temp_max":30}` against the default
configuration) persists `temp_min = 35` (one flash write) and changes
actuator behaviour: at 32 °C the heater is ON under the new configuration
and OFF under the old one. -/
theorem C2_invalid_config_counterexample :
    (messageHandler cmdC2 state0).1.cfg.TEMP_MIN_NIGHT = 35 ∧
    (messageHandler cmdC2 state0).2.w_temp_min = 1 ∧
    (controlStep (messageHandler cmdC2 state0).1.cfg autoCtl inpTemp32
      offActs).heaterStatus = true ∧
    (controlStep defaultConfig autoCtl inpTemp32 offActs).heaterStatus = false := by
  refine ⟨?_, ?_, ?_, ?_⟩
  · rw [msgC2_eval]
  · rw [msgC2_eval]
  · rw [msgC2_eval]
    exact heaterC2_eval _ rfl
  · norm_num [controlStep, autoCtl, inpTemp32, defaultConfig]

/-- Claim C2 as amended: only per-field range checks gate configuration
writes — a temperature/humidity value outside `[0,100]`, a soil threshold
outside `[0,100]`, or a tank distance outside `(0,1000)` is rejected with
no RAM change and no flash write; cross-field invariants are not checked,
so `{"temp_min":35,"temp_max":30}` is accepted: it persists `temp_min = 35`
once and leaves every other value (and the mode latches) unchanged. -/
theorem C2_per_field_validation :
    (∀ (cur v : ℚ), ¬(0 ≤ v ∧ v ≤ 100) → floatUpd (some v) cur = (cur, 0)) ∧
    (∀ (cur v : ℤ), ¬(0 ≤ v ∧ v ≤ 100) → intUpd soilRangeOk (some v) cur = (cur, 0)) ∧
    (∀ (cur v : ℤ), ¬(0 < v ∧ v < 1000) → intUpd tankRangeOk (some v) cur = (cur, 0)) ∧
    messageHandler cmdC2 state0 =
      (⟨{ defaultConfig with TEMP_MIN_NIGHT := 35 }, autoCtl⟩,
       { noWrites with w_temp_min := 1 }) := by
  refine ⟨?_, ?_, ?_, msgC2_eval⟩
  · intro cur v h; simp [floatUpd, h]
  · intro cur v h; simp [intUpd, soilRangeOk, h]
  · intro cur v h; simp [intUpd, tankRangeOk, h]

/-- Witness for C2 (amended): an out-of-range temperature (120) and an
out-of-range tank distance (2000) are rejected without mutation. -/
theorem C2_per_field_validation_witness :
    floatUpd (some 120) 20 = (20, 0) ∧ intUpd tankRangeOk (some 2000) 25 = (25, 0) :=
  ⟨C2_per_field_validation.1 20 120 (by norm_num),
   C2_per_field_validation.2.2.1 25 2000 (by norm_num)⟩

/-- Counterexample for C8: the mode comparison is exact, not
case-insensitive — `{"mode":"Manual"}` (the letter-case variant of
`MANUAL` that differs from both accepted spellings) leaves the device in
AUTO mode instead of switching to MANUAL as the claim requires. -/
theorem C8_mixed_case_counterexample :
    (messageHandler cmdModeMixedCase state0).1.ctl.manualMode = false ∧
    ("Manual" : String) ≠ "MANUAL" ∧ ("Manual" : String) ≠ "manual" := by
  refine ⟨by decide, by decide, by decide⟩

/-- Claim C8 as amended: a `mode` value equal to exactly `"MANUAL"`,
`"manual"` or `"1"` switches to MANUAL; exactly `"AUTO"`, `"auto"` or
`"0"` switches to AUTO and clears all three overrides; any other string
(including other letter-case variants) changes nothing.  `pump` (and,
identically, `fan`/`heater`) is honored iff the mode in effect after the
`mode` key was processed is MANUAL — so `{"mode":"MANUAL","pump":1}`
latches the pump override and the next control cycle drives the pump ON
even with soil 85 above `soil_wet = 70`. -/
theorem C8_mode_dispatch :
    (∀ t : CtrlState,
       applyMode "MANUAL" t = { t with manualMode := true } ∧
       applyMode "manual" t = { t with manualMode := true } ∧
       applyMode "1" t = { t with manualMode := true } ∧
       applyMode "AUTO" t = autoCtl ∧
       applyMode "auto" t = autoCtl ∧
       applyMode "0" t = autoCtl) ∧
    (∀ (t : CtrlState) (m : String), m ≠ "MANUAL" → m ≠ "manual" → m ≠ "1" →
       m ≠ "AUTO" → m ≠ "auto" → m ≠ "0" → applyMode m t = t) ∧
    (∀ (t : CtrlState) (v : ℤ), t.manualMode = true →
       stepPump (some v) t = { t with manualPump := decide (v = 1) }) ∧
    (∀ (t : CtrlState) (v : ℤ), t.manualMode = false → stepPump (some v) t = t) ∧
    (∀ (t : CtrlState) (v : ℤ), t.manualMode = true →
       stepFan (some v) t = { t with manualFan := decide (v = 1) }) ∧
    (∀ (t : CtrlState) (v : ℤ), t.manualMode = false → stepFan (some v) t = t) ∧
    (∀ (t : CtrlState) (v : ℤ), t.manualMode = true →
       stepHeater (some v) t = { t with manualHeater := decide (v = 1) }) ∧
    (∀ (t : CtrlState) (v : ℤ), t.manualMode = false → stepHeater (some v) t = t) ∧
    (messageHandler cmdManualPumpOn state0).1.ctl = ⟨true, true, false, false⟩ ∧
    (controlStep (messageHandler cmdManualPumpOn state0).1.cfg
       (messageHandler cmdManualPumpOn state0).1.ctl ⟨100, 85, 25, 50⟩
       offActs).pumpStatus = true := by
  refine ⟨?_, ?_, ?_, ?_, ?_, ?_, ?_, ?_, by decide, by decide⟩
  · intro t
    refine ⟨?_, ?_, ?_, ?_, ?_, ?_⟩ <;> simp [applyMode, autoCtl]
  · intro t m h1 h2 h3 h4 h5 h6
    simp [applyMode, h1, h2, h3, h4, h5, h6]
  · intro t v h; simp [stepPump, h]
  · intro t v h; simp [stepPump, h]
  · intro t v h; simp [stepFan, h]
  · intro t v h; simp [stepFan, h]
  · intro t v h; simp [stepHeater, h]
  · intro t v h; simp [stepHeater, h]

/-- Witness for C8 (amended): `"Manual"` matches no dispatch arm and is
ignored; with MANUAL latched, `pump:1` latches the pump override,
`fan:1` the fan override, and `heater:0` clears the heater override. -/
theorem C8_mode_dispatch_witness :
    applyMode "Manual" autoCtl = autoCtl ∧
    stepPump (some 1) ⟨true, false, false, false⟩ = ⟨true, true, false, false⟩ ∧
    stepFan (some 1) ⟨true, false, false, false⟩ = ⟨true, false, true, false⟩ ∧
    stepHeater (some 0) ⟨true, false, false, true⟩ = ⟨true, false, false, false⟩ := by
  refine ⟨?_, ?_, ?_, ?_⟩
  · exact C8_mode_dispatch.2.1 autoCtl "Manual" (by decide) (by decide) (by decide)
      (by decide) (by decide) (by decide)
  · have h := C8_mode_dispatch.2.2.1 ⟨true, false, false, false⟩ 1 rfl
    simpa using h
  · have h := C8_mode_dispatch.2.2.2.2.1 ⟨true, false, false, false⟩ 1 rfl
    simpa using h
  · have h := C8_mode_dispatch.2.2.2.2.2.2.1 ⟨true, false, false, true⟩ 0 rfl
    simpa using h

/-- Claim C9: the flash wear guard — a float setpoint write is suppressed
whenever the new value is within 0.1 of the held value, an integer write
whenever the value is unchanged; hence re-delivering any command performs
no flash write the second time, and one delivery writes each key at most
once. -/
theorem C9_flash_wear_guard (s : HandlerState) (c : Cmd) :
    (∀ (cur v : ℚ), |cur - v| ≤ 1 / 10 → floatUpd (some v) cur = (cur, 0)) ∧
    (∀ (ok : ℤ → Bool) (cur : ℤ), intUpd ok (some cur) cur = (cur, 0)) ∧
    (messageHandler c (messageHandler c s).1).2 = noWrites ∧
    ((messageHandler c s).2.w_temp_min ≤ 1 ∧ (messageHandler c s).2.w_temp_max ≤ 1 ∧
     (messageHandler c s).2.w_hum_max ≤ 1 ∧ (messageHandler c s).2.w_soil_dry ≤ 1 ∧
     (messageHandler c s).2.w_soil_wet ≤ 1 ∧ (messageHandler c s).2.w_tank_empty ≤ 1 ∧
     (messageHandler c s).2.w_tank_full ≤ 1 ∧ (messageHandler c s).2.w_cal_air ≤ 1 ∧
     (messageHandler c s).2.w_cal_water ≤ 1) := by
  refine ⟨?_, ?_, ?_, ?_⟩
  · intro cur v h
    have hd : ¬ |cur - v| > 1 / 10 := not_lt.mpr h
    simp only [floatUpd]
    split_ifs <;> simp_all
  · intro ok cur
    simp only [intUpd]
    split_ifs <;> simp_all
  · simp only [messageHandler]
    simp [floatUpd_idem, intUpd_idem, noWrites]
  · simp only [messageHandler]
    exact ⟨floatUpd_snd_le _ _, floatUpd_snd_le _ _, floatUpd_snd_le _ _,
      intUpd_snd_le _ _ _, intUpd_snd_le _ _ _, intUpd_snd_le _ _ _,
      intUpd_snd_le _ _ _, intUpd_snd_le _ _ _, intUpd_snd_le _ _ _⟩

/-- Witness for C9: a temp_min command equal to the held value (within
tolerance) performs no write; the canonical double-delivery instance. -/
theorem C9_flash_wear_guard_witness :
    floatUpd (some 20) 20 = (20, 0) ∧
    (messageHandler cmdC2 (messageHandler cmdC2 state0).1).2 = noWrites :=
  ⟨(C9_flash_wear_guard state0 cmdC2).1 20 20 (by norm_num),
   (C9_flash_wear_guard state0 cmdC2).2.2.1⟩

/-- Claim C10: frame property of the command handler — a configuration
key absent from the payload keeps its RAM value and receives no flash
write, an absent `mode` key leaves the mode latch unchanged, and when
`mode`, `pump`, `fan`, `heater` are all absent the whole latch record is
untouched. -/
theorem C10_handler_frame (c : Cmd) (s : HandlerState) :
    (c.temp_min = none → (messageHandler c s).1.cfg.TEMP_MIN_NIGHT = s.cfg.TEMP_MIN_NIGHT ∧
       (messageHandler c s).2.w_temp_min = 0) ∧
    (c.temp_max = none → (messageHandler c s).1.cfg.TEMP_MAX_DAY = s.cfg.TEMP_MAX_DAY ∧
       (messageHandler c s).2.w_temp_max = 0) ∧
    (c.hum_max = none → (messageHandler c s).1.cfg.HUM_MAX = s.cfg.HUM_MAX ∧
       (messageHandler c s).2.w_hum_max = 0) ∧
    (c.soil_dry = none → (messageHandler c s).1.cfg.SOIL_DRY = s.cfg.SOIL_DRY ∧
       (messageHandler c s).2.w_soil_dry = 0) ∧
    (c.soil_wet = none → (messageHandler c s).1.cfg.SOIL_WET = s.cfg.SOIL_WET ∧
       (messageHandler c s).2.w_soil_wet = 0) ∧
    (c.tank_empty_dist = none →
       (messageHandler c s).1.cfg.TANK_EMPTY_DIST = s.cfg.TANK_EMPTY_DIST ∧
       (messageHandler c s).2.w_tank_empty = 0) ∧
    (c.tank_full_dist = none →
       (messageHandler c s).1.cfg.TANK_FULL_DIST = s.cfg.TANK_FULL_DIST ∧
       (messageHandler c s).2.w_tank_full = 0) ∧
    (c.cal_air = none → (messageHandler c s).1.cfg.AIR_VAL = s.cfg.AIR_VAL ∧
       (messageHandler c s).2.w_cal_air = 0) ∧
    (c.cal_water = none → (messageHandler c s).1.cfg.WATER_VAL = s.cfg.WATER_VAL ∧
       (messageHandler c s).2.w_cal_water = 0) ∧
    (c.mode = none → (messageHandler c s).1.ctl.manualMode = s.ctl.manualMode) ∧
    (c.mode = none → c.pump = none → c.fan = none → c.heater = none →
       (messageHandler c s).1.ctl = s.ctl) := by
  refine ⟨?_, ?_, ?_, ?_, ?_, ?_, ?_, ?_, ?_, ?_, ?_⟩
  · intro h; simp [messageHandler, h, floatUpd]
  · intro h; simp [messageHandler, h, floatUpd]
  · intro h; simp [messageHandler, h, floatUpd]
  · intro h; simp [messageHandler, h, intUpd]
  · intro h; simp [messageHandler, h, intUpd]
  · intro h; simp [messageHandler, h, intUpd]
  · intro h; simp [messageHandler, h, intUpd]
  · intro h; simp [messageHandler, h, intUpd]
  · intro h; simp [messageHandler, h, intUpd]
  · intro h; simp [messageHandler, h, stepPump_mode, stepFan_mode, stepHeater_mode]
  · intro h1 h2 h3 h4
    simp [messageHandler, h1, h2, h3, h4, stepPump, stepFan, stepHeater]

/-- Witness for C10: the empty payload leaves the default handler state
fully untouched. -/
theorem C10_handler_frame_witness :
    (messageHandler emptyCmd state0).1.cfg.TEMP_MIN_NIGHT = state0.cfg.TEMP_MIN_NIGHT ∧
    (messageHandler emptyCmd state0).1.ctl = state0.ctl :=
  ⟨((C10_handler_frame emptyCmd state0).1 rfl).1,
   (C10_handler_frame emptyCmd state0).2.2.2.2.2.2.2.2.2.2 rfl rfl rfl rfl⟩

lemma onMqttConnect_parts (pubOk : Bool) (nvs : BootNvs) :
    (onMqttConnect pubOk nvs).nvs.rb_happened = (nvs.rb_happened && !pubOk) ∧
    (onMqttConnect pubOk nvs).attempts = (if nvs.rb_happened then 1 else 0) ∧
    (onMqttConnect pubOk nvs).successes = (if nvs.rb_happened && pubOk then 1 else 0) := by
  unfold onMqttConnect
  by_cases hc : nvs.crash_count > 0 <;> cases hrb : nvs.rb_happened <;>
    cases pubOk <;> simp [hc, hrb]

lemma runConnects_rb_false (l : List Bool) (nvs : BootNvs)
    (h : nvs.rb_happened = false) :
    (runConnects nvs l).attempts = 0 ∧ (runConnects nvs l).successes = 0 ∧
    (runConnects nvs l).nvs.rb_happened = false := by
  induction l generalizing nvs with
  | nil => simp [runConnects, h]
  | cons ok rest ih =>
    have hs := onMqttConnect_parts ok nvs
    have hrb2 : (onMqttConnect ok nvs).nvs.rb_happened = false := by
      rw [hs.1, h]; rfl
    obtain ⟨ha, hsc, hrb⟩ := ih (onMqttConnect ok nvs).nvs hrb2
    simp [runConnects, hs.2.1, hs.2.2, h, ha, hsc, hrb]

lemma runConnects_rb_true (l : List Bool) (nvs : BootNvs)
    (h : nvs.rb_happened = true) :
    (runConnects nvs l).successes ≤ 1 ∧
    ((runConnects nvs l).nvs.rb_happened = false ↔
       (runConnects nvs l).successes = 1) := by
  induction l generalizing nvs with
  | nil => simp [runConnects, h]
  | cons ok rest ih =>
    have hs := onMqttConnect_parts ok nvs
    cases ok with
    | true =>
      have hrb2 : (onMqttConnect true nvs).nvs.rb_happened = false := by
        rw [hs.1, h]; rfl
      obtain ⟨ha, hsc, hrb⟩ := runConnects_rb_false rest _ hrb2
      simp [runConnects, hs.2.2, h, hsc, hrb]
    | false =>
      have hrb2 : (onMqttConnect false nvs).nvs.rb_happened = true := by
        rw [hs.1, h]; rfl
      obtain ⟨h1, h2⟩ := ih (onMqttConnect false nvs).nvs hrb2
      simp only [runConnects]
      constructor
      · simp [hs.2.2, h]
        omega
      · rw [hs.2.2]
        simp [h, h1, h2]

/-- Claim C4: on a successful MQTT connection with `rb_happened` set,
exactly one `ROLLBACK_EXECUTED` publish is attempted and the flag is
cleared iff the publish call succeeded; with the flag clear nothing is
attempted; and across any sequence of connections at most one alert
publish ever succeeds — exactly one iff the flag ends up cleared. -/
theorem C4_rollback_alert (c : ℤ) (pubOk : Bool) (outcomes : List Bool) :
    (onMqttConnect pubOk ⟨c, true⟩).attempts = 1 ∧
    ((onMqttConnect pubOk ⟨c, true⟩).nvs.rb_happened = false ↔ pubOk = true) ∧
    (onMqttConnect pubOk ⟨c, false⟩).attempts = 0 ∧
    (onMqttConnect pubOk ⟨c, false⟩).successes = 0 ∧
    (runConnects ⟨c, true⟩ outcomes).successes ≤ 1 ∧
    ((runConnects ⟨c, true⟩ outcomes).nvs.rb_happened = false ↔
       (runConnects ⟨c, true⟩ outcomes).successes = 1) := by
  have h1 := onMqttConnect_parts pubOk ⟨c, true⟩
  have h2 := onMqttConnect_parts pubOk ⟨c, false⟩
  have h3 := runConnects_rb_true outcomes ⟨c, true⟩ rfl
  cases pubOk <;> simp_all

lemma drainLines_eq (pub : String → Bool) (L : List String) :
    drainLines pub L = ((cleanLines L).takeWhile pub, (cleanLines L).all pub) := by
  induction L with
  | nil => simp [drainLines, cleanLines]
  | cons l ls ih =>
    by_cases h : 0 < l.trim.length
    · by_cases hp : pub l.trim
      · simp [drainLines, cleanLines, h, hp, ih, List.takeWhile_cons, List.all_cons]
      · simp [drainLines, cleanLines, h, hp, List.takeWhile_cons, List.all_cons]
    · simp [drainLines, cleanLines, h, ih]

/-- Claim C7: the offline drain publishes the lines of `/processing.txt`
in file order, stopping at the first failed publish; the file is deleted
only after a complete successful pass; only then is `/offline_log.txt`
renamed to `/processing.txt` and drained in turn; and when every publish
is acknowledged a single invocation ends with both files absent and every
buffered record published. -/
theorem C7_offline_drain (pub : String → Bool) (p l2 : List String) :
    drainLines pub p = ((cleanLines p).takeWhile pub, (cleanLines p).all pub) ∧
    processOfflineData pub 2 ⟨true, none, none⟩ = (⟨false, none, none⟩, []) ∧
    processOfflineData pub 2 ⟨true, some p, none⟩ =
      (if (cleanLines p).all pub then (⟨true, none, none⟩, cleanLines p)
       else (⟨true, some p, none⟩, (cleanLines p).takeWhile pub)) ∧
    processOfflineData pub 2 ⟨true, none, some l2⟩ =
      (if (cleanLines l2).all pub then (⟨true, none, none⟩, cleanLines l2)
       else (⟨true, some l2, none⟩, (cleanLines l2).takeWhile pub)) ∧
    processOfflineData pub 2 ⟨true, some p, some l2⟩ =
      (if (cleanLines p).all pub then
         (if (cleanLines l2).all pub then
            (⟨true, none, none⟩, cleanLines p ++ cleanLines l2)
          else (⟨true, some l2, none⟩, cleanLines p ++ (cleanLines l2).takeWhile pub))
       else (⟨true, some p, some l2⟩, (cleanLines p).takeWhile pub)) ∧
    processOfflineData (fun _ => true) 2 ⟨true, some p, some l2⟩ =
      (⟨true, none, none⟩, cleanLines p ++ cleanLines l2) := by
  have htw : ∀ (q : String → Bool) (L : List String), L.all q = true →
      L.takeWhile q = L := by
    intro q L h
    induction L with
    | nil => rfl
    | cons a l ih => simp_all [List.takeWhile_cons]
  refine ⟨drainLines_eq pub p, by simp [processOfflineData], ?_, ?_, ?_, ?_⟩
  · by_cases hall : (cleanLines p).all pub = true <;>
      simp_all [processOfflineData, drainLines_eq, htw pub (cleanLines p)]
  · by_cases hall : (cleanLines l2).all pub = true <;>
      simp_all [processOfflineData, drainLines_eq, htw pub (cleanLines l2)]
  · by_cases hp : (cleanLines p).all pub = true <;>
      by_cases hl : (cleanLines l2).all pub = true <;>
      simp_all [processOfflineData, drainLines_eq, htw pub (cleanLines p),
        htw pub (cleanLines l2)] <;>
      (try split_ifs with hsp <;> simp_all)
  · simp [processOfflineData, drainLines_eq, htw (fun _ => true) (cleanLines p),
      htw (fun _ => true) (cleanLines l2)]

end Greenhouse
